import Mathlib

/-!
Verification model of the orchestrator application (src-tauri).

The development shallowly embeds the Rust sources:
  * `process.rs` — the local process supervisor (`launch_app`, `is_running`,
    `terminate`, `cleanup_all`) over a mutex-guarded `HashMap<String, Child>`.
  * `ssh.rs` — the remote session (`connect`, `execute_command`,
    `check_containers`, `check_portal_health`).
  * `commands.rs` — the orchestration commands (`launch_portal`, `get_status`).

External effects (the OS process table, spawn results, the network, remote
command outcomes) are modelled as explicit environments; the registry is
explicit state threaded through each operation, and each operation also
reports the observable events it performs (spawns, start commands, sleeps)
so that claims about side effects can be stated.
-/

/-! ## Data model (config.rs) -/

/-- `LocalAppConfig` from config.rs. -/
structure LocalAppConfig where
  id : String
  name : String
  executable_path : String
  working_directory : Option String
  deriving Repr, DecidableEq

/-- `ServerConfig` from config.rs (u16 ports modelled as `Nat`). -/
structure ServerConfig where
  id : String
  name : String
  host : String
  port : Nat
  username : String
  ssh_key_path : String
  portal_port : Nat
  portal_path : String
  deriving Repr, DecidableEq

/-! ## Process supervisor (process.rs)

The static `PROCESSES: Mutex<HashMap<String, Child>>` is modelled as an
association list `Registry` threaded explicitly through each operation
(the mutex serialises the operations, so each call sees and returns one
registry state).  A `Child` handle is an opaque `Nat`; the OS's answers
to `try_wait`, `spawn`, `kill` and `wait` are an environment `ProcEnv`. -/

/-- Outcome of `Child::try_wait()`: `Ok(Some(_))`, `Ok(None)`, or `Err(_)`. -/
inductive TryWaitResult where
  | exited
  | running
  | err
  deriving Repr, DecidableEq

/-- The OS-side behaviour visible to process.rs during one call. -/
structure ProcEnv where
  /-- what `try_wait` reports for a given child handle -/
  tryWait : Nat → TryWaitResult
  /-- result of `Command::spawn()`: `some child` on success, `none` on error -/
  spawn : Option Nat
  /-- whether `kill()` succeeds for a given child handle -/
  killOk : Nat → Bool
  /-- whether the post-kill `wait()` succeeds for a given child handle -/
  waitOk : Nat → Bool

/-- The process registry: app id to child handle (`HashMap<String, Child>`). -/
abbrev Registry := List (String × Nat)

def regLookup (reg : Registry) (id : String) : Option Nat :=
  List.lookup id reg

def regRemove (reg : Registry) (id : String) : Registry :=
  reg.filter (fun p => p.1 != id)

def regInsert (reg : Registry) (id : String) (child : Nat) : Registry :=
  regRemove reg id ++ [(id, child)]

/-- Errors surfaced by `launch_app`. -/
inductive LaunchError where
  | alreadyRunning (name : String)
  | statusCheckFailed
  | spawnFailed (path : String)
  deriving Repr, DecidableEq

instance {ε α : Type} [DecidableEq ε] [DecidableEq α] : DecidableEq (Except ε α)
  | .ok a, .ok b => decidable_of_iff (a = b) (by simp)
  | .ok _, .error _ => .isFalse (by simp)
  | .error _, .ok _ => .isFalse (by simp)
  | .error a, .error b => decidable_of_iff (a = b) (by simp)

/-- Result of one `launch_app` call: the returned value, the registry after
the call, and the children spawned during the call. -/
structure LaunchOutcome where
  result : Except LaunchError Unit
  reg : Registry
  spawned : List Nat
  deriving Repr, DecidableEq

/-- The spawn-and-insert tail of `launch_app` (`cmd.spawn()` then
`processes.insert(config.id.clone(), child)`). -/
def spawnStep (env : ProcEnv) (config : LocalAppConfig) (reg : Registry) : LaunchOutcome :=
  match env.spawn with
  | some child => { result := .ok (), reg := regInsert reg config.id child, spawned := [child] }
  | none => { result := .error (.spawnFailed config.executable_path), reg := reg, spawned := [] }

/-- `launch_app` from process.rs: under the lock, if an entry exists for
`config.id`, `try_wait` it — if exited, remove the entry and fall through
to the spawn; if still running, fail with "already running"; if the status
check errors, fail.  Otherwise spawn and insert the handle. -/
def launch_app (env : ProcEnv) (config : LocalAppConfig) (reg : Registry) : LaunchOutcome :=
  match regLookup reg config.id with
  | some child =>
    match env.tryWait child with
    | .exited => spawnStep env config (regRemove reg config.id)
    | .running => { result := .error (.alreadyRunning config.name), reg := reg, spawned := [] }
    | .err => { result := .error .statusCheckFailed, reg := reg, spawned := [] }
  | none => spawnStep env config reg

/-- `is_running` from process.rs: looks the id up and `try_wait`s it;
returns `false` for unknown ids, exited processes and status-check errors.
The registry is returned unchanged — the source performs no removal here. -/
def is_running (env : ProcEnv) (reg : Registry) (app_id : String) : Bool × Registry :=
  match regLookup reg app_id with
  | some child =>
    match env.tryWait child with
    | .running => (true, reg)
    | _ => (false, reg)
  | none => (false, reg)

/-- Errors surfaced by `terminate`. -/
inductive TerminateError where
  | killFailed (id : String)
  | waitFailed
  deriving Repr, DecidableEq

/-- `terminate` from process.rs: `processes.remove(app_id)` first; if an
entry was present, `kill()` then `wait()`, each failure surfacing an error
(with the entry already removed); unknown ids are a silent no-op. -/
def terminate (env : ProcEnv) (reg : Registry) (app_id : String) :
    Except TerminateError Unit × Registry :=
  match regLookup reg app_id with
  | some child =>
    let reg' := regRemove reg app_id
    if env.killOk child then
      if env.waitOk child then (.ok (), reg')
      else (.error .waitFailed, reg')
    else (.error (.killFailed app_id), reg')
  | none => (.ok (), reg)

/-- `cleanup_all` from process.rs: drains the registry, best-effort killing
and waiting on every entry. -/
def cleanup_all (_reg : Registry) : Registry :=
  []

/-! ## Remote session (ssh.rs)

The network, the ssh2 library and the remote host are modelled as an
environment `SshEnv` recording the outcome of each external step of
`connect`; the function also reports which authentication methods were
attempted.  Remote command execution is modelled by its result
(`Except String String`, mirroring `execute_command`'s `Result<String>`). -/

/-- `ContainerStatus` from ssh.rs. -/
structure ContainerStatus where
  name : String
  status : String
  state : String
  deriving Repr, DecidableEq

/-- The session value built by a successful `connect`. -/
structure SshSession where
  host : String
  portal_path : String
  deriving Repr, DecidableEq

/-- Authentication methods the ssh2 API offers to `connect`. -/
inductive AuthMethod where
  | pubkeyFile
  | password
  deriving Repr, DecidableEq

/-- Outcomes of the external steps of `SshConnection::connect`. -/
structure SshEnv where
  /-- `TcpStream::connect((host, port))` -/
  tcp : Except String Unit
  /-- `tcp.set_read_timeout(...)` -/
  readTimeout : Except String Unit
  /-- `tcp.set_write_timeout(...)` -/
  writeTimeout : Except String Unit
  /-- `Session::new()` returns `Some` session -/
  sessionNew : Bool
  /-- `session.handshake()` -/
  handshake : Except String Unit
  /-- `Path::new(&config.ssh_key_path).exists()` -/
  keyExists : Bool
  /-- `session.userauth_pubkey_file(...)` -/
  pubkeyAuth : Except String Unit
  /-- `session.authenticated()` after the auth attempt -/
  authenticated : Bool

/-- `SshConnection::connect` from ssh.rs, returning the result together
with the list of authentication methods attempted.  The source
authenticates with the key file when it exists and otherwise fails with
"SSH key not found" — it never attempts password authentication. -/
def connect (env : SshEnv) (config : ServerConfig) :
    Except String SshSession × List AuthMethod :=
  match env.tcp with
  | .error _ => (.error ("Failed to connect to " ++ config.host ++ ":" ++ toString config.port), [])
  | .ok _ =>
  match env.readTimeout with
  | .error e => (.error e, [])
  | .ok _ =>
  match env.writeTimeout with
  | .error e => (.error e, [])
  | .ok _ =>
  if env.sessionNew = false then (.error ("Failed to create SSH session"), [])
  else
  match env.handshake with
  | .error _ => (.error ("SSH handshake failed"), [])
  | .ok _ =>
  if env.keyExists then
    match env.pubkeyAuth with
    | .error _ =>
      (.error ("SSH key authentication failed for key: " ++ config.ssh_key_path), [.pubkeyFile])
    | .ok _ =>
      if env.authenticated = false then (.error ("SSH authentication failed"), [.pubkeyFile])
      else (.ok { host := config.host, portal_path := config.portal_path }, [.pubkeyFile])
  else (.error ("SSH key not found: " ++ config.ssh_key_path), [])

/-! ## Container-list parsing (ssh.rs, `check_containers`)

`check_containers` runs `docker compose ps --format json` and parses the
captured stdout line by line with `serde_json::from_str::<Value>`.  The
JSON values are embedded as `Json`; serde's parse step on each line is
external, so the parsing stage consumes a list of per-line parse results
(`none` = the line is not valid JSON). -/

/-- A `serde_json::Value`. -/
inductive Json where
  | null
  | bool (b : Bool)
  | num (n : Int)
  | str (s : String)
  | arr (xs : List Json)
  | obj (fields : List (String × Json))

/-- `Value::get(key)` on an object (serde maps have unique keys). -/
def jGet (j : Json) (key : String) : Option Json :=
  match j with
  | .obj fields => List.lookup key fields
  | _ => none

/-- `Value::as_str()`. -/
def jAsStr (j : Json) : Option String :=
  match j with
  | .str s => some s
  | _ => none

/-- The body of `check_containers`'s loop for one line: a line that failed
to parse, or whose `Name`/`Status`/`State` are not all present as strings,
yields nothing; otherwise it yields the container entry. -/
def parseContainerLine (line : Option Json) : Option ContainerStatus :=
  match line with
  | none => none
  | some j =>
    match (jGet j ("Name")).bind jAsStr, (jGet j ("Status")).bind jAsStr,
        (jGet j ("State")).bind jAsStr with
    | some n, some s, some st => some { name := n, status := s, state := st }
    | _, _, _ => none

/-- The `for line in output.lines()` loop of `check_containers`, with the
`containers` vector as accumulator (`push` appends). -/
def checkContainersLoop (acc : List ContainerStatus) :
    List (Option Json) → List ContainerStatus
  | [] => acc
  | line :: rest =>
    match parseContainerLine line with
    | some c => checkContainersLoop (acc ++ [c]) rest
    | none => checkContainersLoop acc rest

/-- The parsing stage of `check_containers`: starts from an empty vector
and folds the loop over the output lines. -/
def check_containers (lines : List (Option Json)) : List ContainerStatus :=
  checkContainersLoop [] lines

/-- `check_portal_health` from ssh.rs, applied to the result of
`execute_command` for the curl probe: propagates command failure, and
otherwise reports whether the trimmed output is exactly "200". -/
def check_portal_health (execOut : Except String String) : Except String Bool :=
  match execOut with
  | .error e => .error e
  | .ok output => .ok (output.trim == "200")

/-! ## Orchestration commands (commands.rs)

`launch_portal` and `get_status` run against a `PortalEnv` / `StatusEnv`
recording the outcomes of the remote operations they invoke.  Each command
additionally reports how many start commands it issued and (for
`launch_portal`) how many 2-second sleeps it performed, so that claims
about side effects and elapsed time can be stated. -/

/-- `StatusInfo` from commands.rs. -/
structure StatusInfo where
  connected : Bool
  containers : List ContainerStatus
  portal_url : Option String
  portal_ready : Bool
  deriving Repr, DecidableEq

/-- The portal URL built on success: `format!("http://{}:{}", host, portal_port)`. -/
def portalUrl (server : ServerConfig) : String :=
  "http://" ++ server.host ++ ":" ++ toString server.portal_port

/-- Outcomes of the remote operations `launch_portal` performs:
connecting, listing containers, the start command, and the health probe
(per probe index, counted from 0). -/
structure PortalEnv where
  connect : Except String Unit
  containers : Except String (List ContainerStatus)
  start : Except String Unit
  health : Nat → Except String Bool

/-- Result of one `launch_portal` call: the returned value, how many start
commands were issued, and how many 2-second sleeps were performed. -/
structure PortalOutcome where
  result : Except String String
  startCount : Nat
  sleepCount : Nat
  deriving Repr, DecidableEq

/-- The wait loop of `launch_portal`:
`while waited < max_wait { sleep(2s); waited += 2; match health {...} }`.
`fuel` is the number of loop iterations still permitted by the
`waited < max_wait` guard (initially `max_wait / 2 = 60`); `idx` is the
index of the next probe.  Returns the final `ready` flag and the number of
sleeps performed — note each probe is preceded by one sleep. -/
def pollLoop (health : Nat → Except String Bool) : Nat → Nat → Bool × Nat
  | 0, _ => (false, 0)
  | fuel + 1, idx =>
    match health idx with
    | .ok true => (true, 1)
    | _ =>
      let rest := pollLoop health fuel (idx + 1)
      (rest.1, rest.2 + 1)

/-- `launch_portal` from commands.rs (after config resolution): connect,
list containers; if some container is named "ai-portal" with state
"running", return the portal URL at once; otherwise issue the start
command and enter the 120-second wait loop; on its failure, report
"Portal did not become ready within 120 seconds". -/
def launch_portal (env : PortalEnv) (server : ServerConfig) : PortalOutcome :=
  match env.connect with
  | .error e =>
    { result := .error ("Failed to connect to server: " ++ e), startCount := 0, sleepCount := 0 }
  | .ok _ =>
  match env.containers with
  | .error e =>
    { result := .error ("Failed to check containers: " ++ e), startCount := 0, sleepCount := 0 }
  | .ok cs =>
    let portal_running := cs.any (fun c => c.name == "ai-portal" && c.state == "running")
    if portal_running then
      { result := .ok (portalUrl server), startCount := 0, sleepCount := 0 }
    else
      match env.start with
      | .error e =>
        { result := .error ("Failed to start portal: " ++ e), startCount := 1, sleepCount := 0 }
      | .ok _ =>
        let poll := pollLoop env.health 60 0
        if poll.1 then
          { result := .ok (portalUrl server), startCount := 1, sleepCount := poll.2 }
        else
          { result := .error ("Portal did not become ready within 120 seconds"),
            startCount := 1, sleepCount := poll.2 }

/-- Outcomes of the remote operations `get_status` performs. -/
structure StatusEnv where
  connect : Except String Unit
  containers : Except String (List ContainerStatus)
  health : Except String Bool

/-- Result of one `get_status` call, with the number of start commands it
issued (the source contains no start call on any path). -/
structure StatusOutcome where
  result : Except String StatusInfo
  startCount : Nat
  deriving Repr, DecidableEq

/-- `get_status` from commands.rs (after config resolution): a connect
failure is reported as the successful value `connected = false` with empty
containers and no URL; on a connection, a container-list failure degrades
to `[]` (`unwrap_or_default`) and a health-probe failure degrades to
`false` (`unwrap_or(false)`), with the portal URL always present. -/
def get_status (env : StatusEnv) (server : ServerConfig) : StatusOutcome :=
  match env.connect with
  | .error _ =>
    let info : StatusInfo :=
      { connected := false, containers := [], portal_url := none, portal_ready := false }
    { result := .ok info, startCount := 0 }
  | .ok _ =>
    let containers := match env.containers with | .ok cs => cs | .error _ => []
    let portal_ready := match env.health with | .ok b => b | .error _ => false
    let info : StatusInfo :=
      { connected := true, containers := containers,
        portal_url := some (portalUrl server), portal_ready := portal_ready }
    { result := .ok info, startCount := 0 }

/-! ## Concrete fixtures used by witnesses -/

/-- A sample local app. -/
def appA : LocalAppConfig :=
  { id := "a", name := "App A", executable_path := "/bin/a", working_directory := none }

/-- OS behaviour: every tracked child is still alive, spawning yields child 7. -/
def envAlive : ProcEnv :=
  { tryWait := fun _ => .running, spawn := some 7,
    killOk := fun _ => true, waitOk := fun _ => true }

/-- OS behaviour: every tracked child has exited, spawning yields child 7. -/
def envExitedProc : ProcEnv :=
  { tryWait := fun _ => .exited, spawn := some 7,
    killOk := fun _ => true, waitOk := fun _ => true }

/-- OS behaviour: children alive, spawning fails, `kill()` fails. -/
def envKillFail : ProcEnv :=
  { tryWait := fun _ => .running, spawn := none,
    killOk := fun _ => false, waitOk := fun _ => true }

/-! ## Claims about the process supervisor -/

/-- C1: while the tracked process for `config.id` is alive, a second
`launch_app` fails with the already-running error carrying the app's name,
leaves the registry unchanged and spawns nothing; if the tracked process
has exited, `launch_app` reaps the stale entry and the new spawn succeeds,
registering exactly the fresh child. -/
theorem C1_launch_single_instance (env : ProcEnv) (config : LocalAppConfig)
    (reg : Registry) (child : Nat) (h : regLookup reg config.id = some child) :
    (env.tryWait child = .running →
      launch_app env config reg =
        { result := .error (.alreadyRunning config.name), reg := reg, spawned := [] }) ∧
    (env.tryWait child = .exited → ∀ c, env.spawn = some c →
      launch_app env config reg =
        { result := .ok (), reg := regInsert (regRemove reg config.id) config.id c,
          spawned := [c] }) := by
  constructor
  · intro hrun
    simp [launch_app, h, hrun]
  · intro hex c hs
    simp [launch_app, h, hex, spawnStep, hs]

/-- Witness for C1 at a concrete registry: a second launch of `appA`
fails while child 3 is alive, and succeeds (reaping the entry and
registering child 7) once child 3 has exited. -/
theorem C1_witness :
    launch_app envAlive appA [("a", 3)] =
      { result := .error (.alreadyRunning ("App A")), reg := [("a", 3)], spawned := [] } ∧
    launch_app envExitedProc appA [("a", 3)] =
      { result := .ok (), reg := [("a", 7)], spawned := [7] } := by
  constructor
  · exact (C1_launch_single_instance envAlive appA [("a", 3)] 3 rfl).1 rfl
  · have h := (C1_launch_single_instance envExitedProc appA [("a", 3)] 3 rfl).2 rfl 7 rfl
    rw [h]
    rfl

/-- C5 as stated is false: `terminate` removes the entry before attempting
the kill, so a failing `terminate` does not leave the registry as it was —
here child 5's kill fails, the call errors, and the registry has gone from
one entry to empty. -/
theorem C5_counterexample :
    (terminate envKillFail [("a", 5)] "a").1 = .error (.killFailed ("a")) ∧
    (terminate envKillFail [("a", 5)] "a").2 = [] ∧
    ([("a", 5)] : Registry) ≠ [] := by
  refine ⟨rfl, by decide, by decide⟩

/-- C5 (amended): a failing `launch_app` spawns nothing and leaves the
registry unchanged except possibly for reaping the stale entry of an
already-exited process with the same id; a failing `terminate` occurs only
for a tracked id and always leaves the registry with exactly that entry
removed (the removal precedes the kill attempt). -/
theorem C5_registry_on_error (env : ProcEnv) (config : LocalAppConfig)
    (reg : Registry) (app_id : String) :
    (∀ e, (launch_app env config reg).result = .error e →
      (launch_app env config reg).spawned = [] ∧
      ((launch_app env config reg).reg = reg ∨
        ∃ c, regLookup reg config.id = some c ∧ env.tryWait c = .exited ∧
          (launch_app env config reg).reg = regRemove reg config.id)) ∧
    (∀ e, (terminate env reg app_id).1 = .error e →
      (∃ c, regLookup reg app_id = some c) ∧
      (terminate env reg app_id).2 = regRemove reg app_id) := by
  constructor
  · intro e he
    cases hl : regLookup reg config.id with
    | none =>
      cases hs : env.spawn with
      | some c => simp [launch_app, hl, spawnStep, hs] at he
      | none =>
        refine ⟨by simp [launch_app, hl, spawnStep, hs], Or.inl ?_⟩
        simp [launch_app, hl, spawnStep, hs]
    | some child =>
      cases hw : env.tryWait child with
      | exited =>
        cases hs : env.spawn with
        | some c => simp [launch_app, hl, hw, spawnStep, hs] at he
        | none =>
          refine ⟨by simp [launch_app, hl, hw, spawnStep, hs],
            Or.inr ⟨child, rfl, hw, ?_⟩⟩
          simp [launch_app, hl, hw, spawnStep, hs]
      | running =>
        exact ⟨by simp [launch_app, hl, hw], Or.inl (by simp [launch_app, hl, hw])⟩
      | err =>
        exact ⟨by simp [launch_app, hl, hw], Or.inl (by simp [launch_app, hl, hw])⟩
  · intro e he
    cases hl : regLookup reg app_id with
    | none => simp [terminate, hl] at he
    | some child =>
      refine ⟨⟨child, rfl⟩, ?_⟩
      cases hk : env.killOk child with
      | false => simp [terminate, hl, hk]
      | true =>
        cases hwk : env.waitOk child with
        | false => simp [terminate, hl, hk, hwk]
        | true => simp [terminate, hl, hk, hwk] at he

/-- Witness for C5 (amended): the failing terminate of child 5 concerns a
tracked id and leaves the registry with exactly that entry removed. -/
theorem C5_witness :
    (∃ c, regLookup [("a", 5)] "a" = some c) ∧
    (terminate envKillFail [("a", 5)] "a").2 = regRemove [("a", 5)] "a" :=
  (C5_registry_on_error envKillFail appA [("a", 5)] "a").2 (.killFailed ("a")) rfl

/-- C8 as stated is false: a liveness query on a tracked id whose process
has exited returns `false` but does not reap the entry — the registry
coming out of `is_running` still contains the stale entry for "a". -/
theorem C8_counterexample :
    is_running envExitedProc [("a", 3)] "a" = (false, [("a", 3)]) ∧
    regLookup (is_running envExitedProc [("a", 3)] "a").2 ("a") = some 3 :=
  ⟨rfl, rfl⟩

/-- C8 (amended): for a tracked id whose process has exited, `is_running`
reports `false` but leaves the entry in place; the stale entry is reaped
by the next `launch_app` with that id, which removes it and proceeds to
the spawn step. -/
theorem C8_lazy_reap (env : ProcEnv) (reg : Registry) (id : String) (c : Nat)
    (h : regLookup reg id = some c) (hx : env.tryWait c = .exited) :
    is_running env reg id = (false, reg) ∧
    ∀ config : LocalAppConfig, config.id = id →
      launch_app env config reg = spawnStep env config (regRemove reg id) := by
  constructor
  · simp [is_running, h, hx]
  · intro config hc
    subst hc
    simp [launch_app, h, hx]

/-- Witness for C8 (amended) at a concrete registry with exited child 3. -/
theorem C8_witness :
    is_running envExitedProc [("a", 3)] "a" = (false, [("a", 3)]) ∧
    launch_app envExitedProc appA [("a", 3)] =
      spawnStep envExitedProc appA (regRemove [("a", 3)] "a") :=
  ⟨(C8_lazy_reap envExitedProc [("a", 3)] "a" 3 rfl rfl).1,
   (C8_lazy_reap envExitedProc [("a", 3)] "a" 3 rfl rfl).2 appA rfl⟩

/-! ## Claims about container-list parsing -/

/-- The loop of `check_containers` appends to its accumulator exactly the
successful per-line parses, in encounter order. -/
theorem checkContainersLoop_eq (lines : List (Option Json)) :
    ∀ acc, checkContainersLoop acc lines = acc ++ lines.filterMap parseContainerLine := by
  induction lines with
  | nil => intro acc; simp [checkContainersLoop]
  | cons l rest ih =>
    intro acc
    cases hp : parseContainerLine l with
    | some c => simp [checkContainersLoop, hp, ih]
    | none => simp [checkContainersLoop, hp, ih]

/-- C6: container-list parsing handles each line independently — the
result is exactly the per-line parses that succeed, in encounter order;
a line that is not valid JSON or lacks one of the `Name`/`Status`/`State`
string fields is silently skipped, and a well-formed line contributes
exactly its entry at its position. -/
theorem C6_tolerant_parsing :
    (∀ lines, check_containers lines = lines.filterMap parseContainerLine) ∧
    (∀ l rest, parseContainerLine l = none →
      check_containers (l :: rest) = check_containers rest) ∧
    (∀ l rest c, parseContainerLine l = some c →
      check_containers (l :: rest) = c :: check_containers rest) := by
  refine ⟨fun lines => checkContainersLoop_eq lines [], ?_, ?_⟩
  · intro l rest hp
    simp [check_containers, checkContainersLoop, hp]
  · intro l rest c hp
    simp [check_containers, checkContainersLoop, hp, checkContainersLoop_eq]

/-- A well-formed `docker compose ps` line. -/
def lineGood : Option Json :=
  some (.obj [("Name", .str ("ai-portal")), ("Status", .str ("Up 2 minutes")),
    ("State", .str ("running"))])

/-- A line that is not valid JSON. -/
def lineBad : Option Json := none

/-- A JSON line lacking the `State` field. -/
def lineNoState : Option Json :=
  some (.obj [("Name", .str ("db")), ("Status", .str ("Exited"))])

/-- Witness for C6 on a concrete mixture: the malformed line and the line
lacking `State` are skipped, the single well-formed line survives. -/
theorem C6_witness :
    check_containers [lineBad, lineGood, lineNoState] =
      [{ name := "ai-portal", status := "Up 2 minutes", state := "running" }] := by
  have h1 := C6_tolerant_parsing.2.1 lineBad [lineGood, lineNoState] rfl
  have h2 := C6_tolerant_parsing.2.2 lineGood [lineNoState]
    { name := "ai-portal", status := "Up 2 minutes", state := "running" } rfl
  have h3 := C6_tolerant_parsing.2.1 lineNoState [] rfl
  rw [h1, h2, h3]
  rfl

/-! ## Claims about `connect` -/

/-- C9: with the transport and handshake succeeding, `connect` fails with
the key-not-found error when the credential file is absent, attempting no
authentication method at all (in particular no password fallback); it
fails with an authentication error when the remote end rejects the key or
the post-handshake authenticated status is false; and a session comes back
only when the authenticated status was true.  Password authentication is
never attempted on any path. -/
theorem C9_connect_auth (env : SshEnv) (config : ServerConfig)
    (htcp : env.tcp = .ok ()) (hrt : env.readTimeout = .ok ())
    (hwt : env.writeTimeout = .ok ()) (hsn : env.sessionNew = true)
    (hhs : env.handshake = .ok ()) :
    (env.keyExists = false →
      connect env config = (.error ("SSH key not found: " ++ config.ssh_key_path), [])) ∧
    (∀ (env2 : SshEnv) (config2 : ServerConfig),
      AuthMethod.password ∉ (connect env2 config2).2) ∧
    (env.keyExists = true → ∀ e, env.pubkeyAuth = .error e →
      (connect env config).1 =
        .error ("SSH key authentication failed for key: " ++ config.ssh_key_path)) ∧
    (env.keyExists = true → env.pubkeyAuth = .ok () → env.authenticated = false →
      (connect env config).1 = .error ("SSH authentication failed")) ∧
    (∀ s, (connect env config).1 = .ok s → env.authenticated = true) := by
  refine ⟨?_, ?_, ?_, ?_, ?_⟩
  · intro hke
    simp [connect, htcp, hrt, hwt, hsn, hhs, hke]
  · intro env2 config2
    unfold connect
    cases htcp2 : env2.tcp with
    | error e => simp
    | ok u =>
      cases hrt2 : env2.readTimeout with
      | error e => simp
      | ok u =>
        cases hwt2 : env2.writeTimeout with
        | error e => simp
        | ok u =>
          cases hsn2 : env2.sessionNew with
          | false => simp
          | true =>
            cases hhs2 : env2.handshake with
            | error e => simp
            | ok u =>
              cases hke2 : env2.keyExists with
              | false => simp
              | true =>
                cases hpa2 : env2.pubkeyAuth with
                | error e => simp
                | ok u =>
                  cases hau2 : env2.authenticated with
                  | false => simp
                  | true => simp
  · intro hke e hpa
    simp [connect, htcp, hrt, hwt, hsn, hhs, hke, hpa]
  · intro hke hpa hau
    simp [connect, htcp, hrt, hwt, hsn, hhs, hke, hpa, hau]
  · intro s hok
    cases hke : env.keyExists with
    | false => simp [connect, htcp, hrt, hwt, hsn, hhs, hke] at hok
    | true =>
      cases hpa : env.pubkeyAuth with
      | error e => simp [connect, htcp, hrt, hwt, hsn, hhs, hke, hpa] at hok
      | ok u =>
        cases hau : env.authenticated with
        | false => simp [connect, htcp, hrt, hwt, hsn, hhs, hke, hpa, hau] at hok
        | true => rfl

/-- A sample server. -/
def serverA : ServerConfig :=
  { id := "s1", name := "srv", host := "h", port := 22, username := "u",
    ssh_key_path := "/k", portal_port := 8080, portal_path := "/srv/portal" }

/-- Transport and handshake succeed; the credential file is absent. -/
def sshEnvNoKey : SshEnv :=
  { tcp := .ok (), readTimeout := .ok (), writeTimeout := .ok (), sessionNew := true,
    handshake := .ok (), keyExists := false, pubkeyAuth := .ok (), authenticated := false }

/-- The credential file exists but the remote end rejects it. -/
def sshEnvRejected : SshEnv :=
  { tcp := .ok (), readTimeout := .ok (), writeTimeout := .ok (), sessionNew := true,
    handshake := .ok (), keyExists := true, pubkeyAuth := .error ("rejected"),
    authenticated := false }

/-- The key is accepted but the session does not report authenticated. -/
def sshEnvNotAuthed : SshEnv :=
  { tcp := .ok (), readTimeout := .ok (), writeTimeout := .ok (), sessionNew := true,
    handshake := .ok (), keyExists := true, pubkeyAuth := .ok (), authenticated := false }

/-- Fully successful authentication. -/
def sshEnvOk : SshEnv :=
  { tcp := .ok (), readTimeout := .ok (), writeTimeout := .ok (), sessionNew := true,
    handshake := .ok (), keyExists := true, pubkeyAuth := .ok (), authenticated := true }

/-- Witness for C9 at the four concrete authentication scenarios. -/
theorem C9_witness :
    connect sshEnvNoKey serverA = (.error ("SSH key not found: /k"), []) ∧
    (connect sshEnvRejected serverA).1 =
      .error ("SSH key authentication failed for key: /k") ∧
    (connect sshEnvNotAuthed serverA).1 = .error ("SSH authentication failed") ∧
    sshEnvOk.authenticated = true := by
  refine ⟨?_, ?_, ?_, ?_⟩
  · have h := (C9_connect_auth sshEnvNoKey serverA rfl rfl rfl rfl rfl).1 rfl
    rw [h]
    rfl
  · have h := (C9_connect_auth sshEnvRejected serverA rfl rfl rfl rfl rfl).2.2.1
      rfl ("rejected") rfl
    rw [h]
    rfl
  · exact (C9_connect_auth sshEnvNotAuthed serverA rfl rfl rfl rfl rfl).2.2.2.1 rfl rfl rfl
  · exact (C9_connect_auth sshEnvOk serverA rfl rfl rfl rfl rfl).2.2.2.2
      ⟨"h", "/srv/portal"⟩ rfl

/-! ## Claims about the readiness protocol (`launch_portal`) -/

/-- If no probe ever reports success, the wait loop runs all `fuel`
iterations, sleeping once per iteration, and ends not-ready. -/
theorem pollLoop_never_ready (health : Nat → Except String Bool)
    (hh : ∀ i, health i ≠ .ok true) :
    ∀ fuel idx, pollLoop health fuel idx = (false, fuel) := by
  intro fuel
  induction fuel with
  | zero => intro idx; rfl
  | succ n ih =>
    intro idx
    cases hp : health idx with
    | error e => simp [pollLoop, hp, ih]
    | ok b =>
      cases b with
      | false => simp [pollLoop, hp, ih]
      | true => exact absurd hp (hh idx)

/-- The first successful probe stops the loop at once: with `k` failing
probes before it (and the ceiling not yet reached), the loop performs
exactly `k + 1` sleeps — one sleep precedes every probe, including the
successful one, and none follows it. -/
theorem pollLoop_first_success (health : Nat → Except String Bool) :
    ∀ k fuel idx, k < fuel →
      (∀ i, i < k → health (idx + i) ≠ .ok true) →
      health (idx + k) = .ok true →
      pollLoop health fuel idx = (true, k + 1) := by
  intro k
  induction k with
  | zero =>
    intro fuel idx hk _ hsucc
    cases fuel with
    | zero => exact absurd hk (Nat.not_lt_zero _)
    | succ n =>
      rw [Nat.add_zero] at hsucc
      simp [pollLoop, hsucc]
  | succ m ih =>
    intro fuel idx hk hfail hsucc
    cases fuel with
    | zero => exact absurd hk (Nat.not_lt_zero _)
    | succ n =>
      have h0 : health idx ≠ .ok true := by
        have h := hfail 0 (Nat.succ_pos m)
        rwa [Nat.add_zero] at h
      have hrec : pollLoop health n (idx + 1) = (true, m + 1) := by
        refine ih n (idx + 1) (by omega) ?_ ?_
        · intro i hi
          have heq : idx + 1 + i = idx + (i + 1) := by omega
          rw [heq]
          exact hfail (i + 1) (by omega)
        · have heq : idx + 1 + m = idx + (m + 1) := by omega
          rw [heq]
          exact hsucc
      cases hp : health idx with
      | error e => simp [pollLoop, hp, hrec]
      | ok b =>
        cases b with
        | false => simp [pollLoop, hp, hrec]
        | true => exact absurd hp h0

/-- Health probe failing for indices 0–2 and succeeding from index 3 on. -/
def health3 : Nat → Except String Bool :=
  fun i => if i < 3 then .ok false else .ok true

/-- Environment for C2: container not running, start succeeds, first 3
probes fail, the 4th succeeds. -/
def portalEnvC2 : PortalEnv :=
  { connect := .ok (), containers := .ok [], start := .ok (), health := health3 }

/-- C2 as stated is false: with the first 3 probes failing and the 4th
succeeding, the protocol does return the URL, but only after 4 sleep
intervals (≈8 seconds of simulated sleep), not 3 — the loop sleeps once
before every probe, the successful one included. -/
theorem C2_counterexample :
    (launch_portal portalEnvC2 serverA).result = .ok (portalUrl serverA) ∧
    (launch_portal portalEnvC2 serverA).sleepCount = 4 ∧
    (launch_portal portalEnvC2 serverA).sleepCount ≠ 3 := by
  refine ⟨rfl, rfl, by decide⟩

/-- C2 (amended): when the container is not running, the start command
succeeds, the first 3 probes fail and the 4th succeeds, the protocol
returns the portal URL after exactly 4 sleep intervals (≈8 seconds of
simulated sleep — one sleep precedes each probe) without exceeding the
ceiling, and it stops polling immediately at the first successful probe,
with no further sleeps. -/
theorem C2_ready_after_four_sleeps (env : PortalEnv) (server : ServerConfig)
    (cs : List ContainerStatus)
    (hc : env.connect = .ok ()) (hcs : env.containers = .ok cs)
    (hnr : cs.any (fun c => c.name == "ai-portal" && c.state == "running") = false)
    (hst : env.start = .ok ())
    (hfail : ∀ i, i < 3 → env.health i ≠ .ok true)
    (hsucc : env.health 3 = .ok true) :
    launch_portal env server =
      { result := .ok (portalUrl server), startCount := 1, sleepCount := 4 } ∧
    pollLoop env.health 60 0 = (true, 4) := by
  have hp : pollLoop env.health 60 0 = (true, 4) := by
    refine pollLoop_first_success env.health 3 60 0 (by omega) ?_ ?_
    · intro i hi
      rw [Nat.zero_add]
      exact hfail i hi
    · rw [Nat.zero_add]
      exact hsucc
  exact ⟨by simp [launch_portal, hc, hcs, hnr, hst, hp], hp⟩

/-- Witness for C2 (amended) at the concrete 3-failures-then-success
environment. -/
theorem C2_witness :
    launch_portal portalEnvC2 serverA =
      { result := .ok (portalUrl serverA), startCount := 1, sleepCount := 4 } :=
  (C2_ready_after_four_sleeps portalEnvC2 serverA [] rfl rfl rfl rfl
    (fun i hi => by simp [portalEnvC2, health3, hi]) rfl).1

/-- C3: with the container not running, a successful start command, and a
health probe that never reports success, the protocol issues the start
command exactly once, absorbs every probe failure (the probe's own errors
never surface), and returns the timeout error naming the 120-second bound
after all 60 sleeps of 2 seconds — the full fixed ceiling. -/
theorem C3_timeout_after_ceiling (env : PortalEnv) (server : ServerConfig)
    (cs : List ContainerStatus)
    (hc : env.connect = .ok ()) (hcs : env.containers = .ok cs)
    (hnr : cs.any (fun c => c.name == "ai-portal" && c.state == "running") = false)
    (hst : env.start = .ok ())
    (hh : ∀ i, env.health i ≠ .ok true) :
    launch_portal env server =
      { result := .error ("Portal did not become ready within 120 seconds"),
        startCount := 1, sleepCount := 60 } ∧
    2 * (launch_portal env server).sleepCount = 120 := by
  have hp : pollLoop env.health 60 0 = (false, 60) :=
    pollLoop_never_ready env.health hh 60 0
  have h : launch_portal env server =
      { result := .error ("Portal did not become ready within 120 seconds"),
        startCount := 1, sleepCount := 60 } := by
    simp [launch_portal, hc, hcs, hnr, hst, hp]
  exact ⟨h, by rw [h]; rfl⟩

/-- Environment for C3: container not running, start succeeds, every
probe fails at the transport level. -/
def portalEnvDown : PortalEnv :=
  { connect := .ok (), containers := .ok [], start := .ok (),
    health := fun _ => .error ("connection refused") }

/-- Witness for C3 at a concrete always-failing probe. -/
theorem C3_witness :
    launch_portal portalEnvDown serverA =
      { result := .error ("Portal did not become ready within 120 seconds"),
        startCount := 1, sleepCount := 60 } ∧
    2 * (launch_portal portalEnvDown serverA).sleepCount = 120 :=
  C3_timeout_after_ceiling portalEnvDown serverA [] rfl rfl rfl rfl
    (fun i => by simp [portalEnvDown])

/-- C4: if the inspection reports a container named "ai-portal" whose
state is "running", the protocol short-circuits — it returns the portal
URL composed from host and health port, issuing no start command and
performing no sleep. -/
theorem C4_short_circuit (env : PortalEnv) (server : ServerConfig)
    (cs : List ContainerStatus) (c : ContainerStatus)
    (hc : env.connect = .ok ()) (hcs : env.containers = .ok cs)
    (hmem : c ∈ cs) (hname : c.name = "ai-portal") (hstate : c.state = "running") :
    launch_portal env server =
      { result := .ok (portalUrl server), startCount := 0, sleepCount := 0 } := by
  have hrun : cs.any (fun x => x.name == "ai-portal" && x.state == "running") = true := by
    refine List.any_eq_true.mpr ⟨c, hmem, ?_⟩
    simp [hname, hstate]
  simp [launch_portal, hc, hcs, hrun]

/-- A running portal container. -/
def portalRunning : ContainerStatus :=
  { name := "ai-portal", status := "Up 5 minutes", state := "running" }

/-- Environment for C4: inspection reports the portal already running. -/
def portalEnvUp : PortalEnv :=
  { connect := .ok (), containers := .ok [portalRunning], start := .ok (),
    health := fun _ => .ok true }

/-- Witness for C4 at the concrete already-running inspection result. -/
theorem C4_witness :
    launch_portal portalEnvUp serverA =
      { result := .ok (portalUrl serverA), startCount := 0, sleepCount := 0 } :=
  C4_short_circuit portalEnvUp serverA [portalRunning] portalRunning rfl rfl
    (by simp) rfl rfl

/-! ## Claims about the status query (`get_status`) -/

/-- C7: when the connection cannot be established, the status query
returns the successful value with connected = false, an empty container
list, no portal URL and portal_ready = false — not an error; and no path
of `get_status`, with any environment, issues a start command. -/
theorem C7_status_unreachable (env : StatusEnv) (server : ServerConfig)
    (e : String) (h : env.connect = .error e) :
    (get_status env server).result = .ok ⟨false, [], none, false⟩ ∧
    ∀ (env2 : StatusEnv) (server2 : ServerConfig),
      (get_status env2 server2).startCount = 0 := by
  constructor
  · simp [get_status, h]
  · intro env2 server2
    cases h2 : env2.connect with
    | error e2 => simp [get_status, h2]
    | ok u => simp [get_status, h2]

/-- Environment for C7: the host is unreachable. -/
def statusEnvDown : StatusEnv :=
  { connect := .error ("unreachable"), containers := .error ("n/a"), health := .error ("n/a") }

/-- Witness for C7 at a concrete unreachable host. -/
theorem C7_witness :
    (get_status statusEnvDown serverA).result = .ok ⟨false, [], none, false⟩ ∧
    (get_status statusEnvDown serverA).startCount = 0 :=
  ⟨(C7_status_unreachable statusEnvDown serverA ("unreachable") rfl).1,
   (C7_status_unreachable statusEnvDown serverA ("unreachable") rfl).2 statusEnvDown serverA⟩

/-- C10: when the connection succeeds, the status query always returns a
successful value, with connected = true and the portal URL present; a
failing container listing degrades to an empty list; a probe that fails,
or whose trimmed output is not "200" (yielding `Ok(false)` from
`check_portal_health`), degrades to portal_ready = false; and on every
path of `get_status`, the returned portal URL is present exactly when
connected is true. -/
theorem C10_connected_status (env : StatusEnv) (server : ServerConfig)
    (h : env.connect = .ok ()) :
    ∃ info : StatusInfo,
      (get_status env server).result = .ok info ∧
      info.connected = true ∧
      info.portal_url = some (portalUrl server) ∧
      (∀ e, env.containers = .error e → info.containers = []) ∧
      (∀ e, env.health = .error e → info.portal_ready = false) ∧
      (env.health = .ok false → info.portal_ready = false) ∧
      (∀ out, env.health = check_portal_health (.ok out) → out.trim ≠ "200" →
        info.portal_ready = false) ∧
      (∀ (env2 : StatusEnv) (server2 : ServerConfig) (info2 : StatusInfo),
        (get_status env2 server2).result = .ok info2 →
        (info2.portal_url.isSome ↔ info2.connected = true)) := by
  refine ⟨⟨true,
      (match env.containers with | .ok cs => cs | .error _ => []),
      some (portalUrl server),
      (match env.health with | .ok b => b | .error _ => false)⟩,
    ?_, rfl, rfl, ?_, ?_, ?_, ?_, ?_⟩
  · simp [get_status, h]
  · intro e he
    simp [he]
  · intro e he
    simp [he]
  · intro hf
    simp [hf]
  · intro out hh hne
    simp only [check_portal_health] at hh
    simp only [hh]
    exact beq_eq_false_iff_ne.mpr hne
  · intro env2 server2 info2 h2
    cases hc2 : env2.connect with
    | error e2 =>
      simp [get_status, hc2] at h2
      subst h2
      simp
    | ok u =>
      simp [get_status, hc2] at h2
      subst h2
      simp

/-- Environment for C10: connected, container listing fails, probe fails. -/
def statusEnvDegraded : StatusEnv :=
  { connect := .ok (), containers := .error ("compose failed"),
    health := .error ("curl failed") }

/-- Witness for C10 at a concrete degraded-but-connected environment. -/
theorem C10_witness :
    (get_status statusEnvDegraded serverA).result =
      .ok ⟨true, [], some (portalUrl serverA), false⟩ := by
  obtain ⟨info, h1, h2, h3, h4, h5, h6, h7, h8⟩ :=
    C10_connected_status statusEnvDegraded serverA rfl
  have hc : info.containers = [] := h4 ("compose failed") rfl
  have hr : info.portal_ready = false := h5 ("curl failed") rfl
  have hinfo : info = ⟨true, [], some (portalUrl serverA), false⟩ := by
    cases info
    simp_all
  rw [← hinfo]
  exact h1
